import Mathlib

/-
  Shallow embedding of the analyzeShardKey command orchestration from
  src/mongo/db/s/analyze_shard_key_cmd.cpp.

  The file models the command invocation (AnalyzeShardKeyCmd::Invocation):
  the precondition checks, the two fail-point-gated analysis phases, the
  response assembly with the orphan-document advisory note, and the
  authorization check.  External collaborators (namespace validation,
  collection-option validation, the two metric calculators, the
  authorization session) are oracles carried in an environment record;
  their outcomes are arbitrary values of the appropriate result types.
  An event trace records which checks were executed and which phase
  collaborators were invoked, so that ordering and skip properties can be
  stated.
-/

namespace analyze_shard_key

/-- Error codes used by the command, plus an `other` constructor so that
collaborator failures can carry arbitrary codes. -/
inductive ErrorCode where
  | IllegalOperation
  | Unauthorized
  | InvalidNamespace
  | InvalidOptions
  | NamespaceNotFound
  | other (n : Nat)
deriving DecidableEq, Repr

/-- A uassert-style error: an error code together with a user-facing message. -/
structure Err where
  code : ErrorCode
  msg : String
deriving DecidableEq, Repr

/-- Error raised by the first precondition check (line 70-72 of the source):
IllegalOperation, standalone message. -/
def standaloneError : Err :=
  { code := ErrorCode.IllegalOperation,
    msg := "analyzeShardKey command is not supported on a standalone mongod" }

/-- Error raised by the second precondition check (line 73-75 of the source):
IllegalOperation, configsvr message. -/
def configsvrError : Err :=
  { code := ErrorCode.IllegalOperation,
    msg := "analyzeShardKey command is not supported on a configsvr mongod" }

/-- Error raised by doCheckAuthorization (line 121-127 of the source). -/
def unauthorizedError : Err :=
  { code := ErrorCode.Unauthorized, msg := "Unauthorized" }

/-- A value-frequency pair of the mostCommonValues summary. -/
structure ValueFrequencyMetrics where
  value : String
  frequency : Int
deriving DecidableEq, Repr

/-- Modelled from the spec: the KeyCharacteristicsMetrics result record of
the generated IDL (not part of the given source): counts of total
documents, distinct key values, orphaned documents, and a
most-common-values summary, each field optional. -/
structure KeyCharacteristicsMetrics where
  numDocs : Option Int
  numDistinctValues : Option Int
  mostCommonValues : Option (List ValueFrequencyMetrics)
  numOrphanDocs : Option Int
deriving DecidableEq, Repr

namespace KeyCharacteristicsMetrics

/-- Modelled from the spec: generated IDL field-name constant. -/
def kNumDocsFieldName : String := "numDocs"

/-- Modelled from the spec: generated IDL field-name constant. -/
def kNumDistinctValuesFieldName : String := "numDistinctValues"

/-- Modelled from the spec: generated IDL field-name constant. -/
def kMostCommonValuesFieldName : String := "mostCommonValues"

/-- Modelled from the spec: generated IDL field-name constant. -/
def kNumOrphanDocsFieldName : String := "numOrphanDocs"

end KeyCharacteristicsMetrics

/-- The fixed advisory note text (lines 53-58 of the source), built by
string concatenation from the KeyCharacteristicsMetrics field names. -/
def kOrphanDocsWarningMessage : String :=
  "If \"" ++ KeyCharacteristicsMetrics.kNumOrphanDocsFieldName
    ++ "\" is large relative to \"" ++ KeyCharacteristicsMetrics.kNumDocsFieldName
    ++ "\", you may want to rerun the command at some other time to get more accurate \""
    ++ KeyCharacteristicsMetrics.kNumDistinctValuesFieldName ++ "\" and \""
    ++ KeyCharacteristicsMetrics.kMostCommonValuesFieldName ++ "\" metrics."

/-- Modelled from the spec: the AnalyzeShardKeyResponse of the generated IDL
(not part of the given source).  Every field is optional; absent means the
corresponding phase was skipped.  `R` and `W` are the (opaque)
ReadDistributionMetrics and WriteDistributionMetrics result types. -/
structure AnalyzeShardKeyResponse (R W : Type) where
  keyCharacteristics : Option KeyCharacteristicsMetrics
  readDistribution : Option R
  writeDistribution : Option W
  note : Option String
deriving DecidableEq, Repr

/-- A freshly default-constructed response (line 84 of the source): every
optional field unset. -/
def emptyResponse (R W : Type) : AnalyzeShardKeyResponse R W :=
  { keyCharacteristics := none, readDistribution := none,
    writeDistribution := none, note := none }

/-- Modelled from the spec: the generated accessor
AnalyzeShardKeyResponse::getNumOrphanDocs used on line 92 of the source.
The spec describes the orphan-document count as possibly absent (zero or
absent counts), so the accessor yields an optional count: the
numOrphanDocs field of the key-characteristics record when that record has
been set, and an absent value otherwise.  The C++ condition
`if (response.getNumOrphanDocs())` therefore tests presence of the count. -/
def getNumOrphanDocs {R W : Type} (response : AnalyzeShardKeyResponse R W) : Option Int :=
  response.keyCharacteristics.bind (fun kc => kc.numOrphanDocs)

/-- Resource patterns, as used by the authorization check (line 125). -/
inductive ResourcePattern where
  | exactNamespace (nss : String)
  | database (db : String)
  | anyNormalResource
deriving DecidableEq, Repr

/-- Authorization action types; the command requires shardCollection. -/
inductive ActionType where
  | shardCollection
  | find
  | insert
deriving DecidableEq, Repr

/-- Trace events: which checks were executed and which phase collaborators
were invoked during an invocation. -/
inductive Event where
  | checkAuth
  | checkRepl
  | checkConfigRole
  | checkNamespace
  | checkCollOptions
  | phase1
  | phase2
deriving DecidableEq, Repr

/-- The environment of one invocation: the deployment state read by the
precondition checks, the two fail points, the multitenancy flag, and the
outcomes of the external collaborators.  `U` is the (opaque) collection
UUID type produced by validateCollectionOptionsLocally and passed to both
metric calculators. -/
structure Env (R W U : Type) where
  isReplEnabled : Bool
  exclusivelyHasConfigRole : Bool
  nss : String
  key : String
  validateNamespace : String → Except Err Unit
  validateCollectionOptionsLocally : String → Except Err U
  skipKeyCharacteristicsFailPoint : Bool
  skipReadWriteDistributionFailPoint : Bool
  multitenancySupport : Bool
  calculateKeyCharacteristicsMetrics : String → U → String → Except Err KeyCharacteristicsMetrics
  calculateReadWriteDistributionMetrics : String → U → String → Except Err (R × W)
  isAuthorizedForActionsOnResource : ResourcePattern → ActionType → Bool

/-- The gate condition of Phase 1 (line 87-88 of the source): the phase is
attempted unless the analyzeShardKeySkipCalcalutingKeyCharactericsMetrics
fail point is engaged. -/
def phase1Gate {R W U : Type} (env : Env R W U) : Bool :=
  !env.skipKeyCharacteristicsFailPoint

/-- The gate condition of Phase 2 (lines 99-101 of the source): the phase is
attempted unless multitenancy is enabled or the
analyzeShardKeySkipCalcalutingReadWriteDistributionMetrics fail point is
engaged. -/
def phase2Gate {R W U : Type} (env : Env R W U) : Bool :=
  !env.multitenancySupport && !env.skipReadWriteDistributionFailPoint

/-- Phase 2 of typedRun (lines 97-107 of the source): under its gate, invoke
the read/write-distribution calculator and attach both records to the
response; on collaborator failure propagate the error. -/
def runPhase2 {R W U : Type} (env : Env R W U) (collUuid : U) (trace : List Event)
    (response : AnalyzeShardKeyResponse R W) :
    List Event × Except Err (AnalyzeShardKeyResponse R W) :=
  if phase2Gate env then
    match env.calculateReadWriteDistributionMetrics env.nss collUuid env.key with
    | Except.error e => (trace ++ [Event.phase2], Except.error e)
    | Except.ok (readDistribution, writeDistribution) =>
        (trace ++ [Event.phase2],
         Except.ok { response with readDistribution := some readDistribution,
                                   writeDistribution := some writeDistribution })
  else (trace, Except.ok response)

/-- The body of AnalyzeShardKeyCmd::Invocation::typedRun (lines 69-110 of
the source), paired with the trace of executed checks and invoked phase
collaborators.  The four uassert precondition checks run in order and
short-circuit; then Phase 1 (key characteristics and the advisory note)
and Phase 2 (read/write distribution) run under their gates. -/
def run {R W U : Type} (env : Env R W U) :
    List Event × Except Err (AnalyzeShardKeyResponse R W) :=
  if !env.isReplEnabled then
    ([Event.checkRepl], Except.error standaloneError)
  else if env.exclusivelyHasConfigRole then
    ([Event.checkRepl, Event.checkConfigRole], Except.error configsvrError)
  else
    match env.validateNamespace env.nss with
    | Except.error e =>
        ([Event.checkRepl, Event.checkConfigRole, Event.checkNamespace], Except.error e)
    | Except.ok _ =>
      match env.validateCollectionOptionsLocally env.nss with
      | Except.error e =>
          ([Event.checkRepl, Event.checkConfigRole, Event.checkNamespace,
            Event.checkCollOptions], Except.error e)
      | Except.ok collUuid =>
        let checksTrace := [Event.checkRepl, Event.checkConfigRole, Event.checkNamespace,
          Event.checkCollOptions]
        if phase1Gate env then
          match env.calculateKeyCharacteristicsMetrics env.nss collUuid env.key with
          | Except.error e => (checksTrace ++ [Event.phase1], Except.error e)
          | Except.ok keyCharacteristics =>
            let response1 :=
              { emptyResponse R W with keyCharacteristics := some keyCharacteristics }
            let response2 :=
              if (getNumOrphanDocs response1).isSome then
                { response1 with note := some kOrphanDocsWarningMessage }
              else response1
            runPhase2 env collUuid (checksTrace ++ [Event.phase1]) response2
        else
          runPhase2 env collUuid checksTrace (emptyResponse R W)

/-- The result of typedRun alone (the trace forgotten). -/
def typedRun {R W U : Type} (env : Env R W U) :
    Except Err (AnalyzeShardKeyResponse R W) :=
  (run env).2

/-- AnalyzeShardKeyCmd::Invocation::doCheckAuthorization (lines 121-127 of
the source): fail with Unauthorized unless the session authorizes the
shardCollection action on the exact target namespace. -/
def doCheckAuthorization {R W U : Type} (env : Env R W U) : Except Err Unit :=
  if env.isAuthorizedForActionsOnResource
       (ResourcePattern.exactNamespace env.nss) ActionType.shardCollection then
    Except.ok ()
  else Except.error unauthorizedError

/-- Modelled from the spec: the command-dispatch layer (the TypedCommand
base class, not part of the given source) runs doCheckAuthorization
independently of and prior to the functional checks of typedRun, per the
spec sentence on the authorization contract. -/
def runCommand {R W U : Type} (env : Env R W U) :
    List Event × Except Err (AnalyzeShardKeyResponse R W) :=
  match doCheckAuthorization env with
  | Except.error e => ([Event.checkAuth], Except.error e)
  | Except.ok _ =>
    let result := run env
    (Event.checkAuth :: result.1, result.2)

/-- Key-characteristics metrics with an absent orphan-document count
(what an unsharded collection reports). -/
def sampleMetrics : KeyCharacteristicsMetrics :=
  { numDocs := some 1000000, numDistinctValues := some 50,
    mostCommonValues := some [{ value := "region1", frequency := 100 }],
    numOrphanDocs := none }

/-- Key-characteristics metrics reporting an orphan-document count of zero. -/
def kcZeroOrphans : KeyCharacteristicsMetrics :=
  { numDocs := some 1000000, numDistinctValues := some 50,
    mostCommonValues := some [{ value := "region1", frequency := 100 }],
    numOrphanDocs := some 0 }

/-- Key-characteristics metrics reporting a nonzero orphan-document count. -/
def kcWithOrphans : KeyCharacteristicsMetrics :=
  { numDocs := some 1000000, numDistinctValues := some 50,
    mostCommonValues := some [{ value := "region1", frequency := 100 }],
    numOrphanDocs := some 9 }

/-- A concrete environment in which every check passes, both gates are
disengaged, multitenancy is off and both collaborators succeed. -/
def baseEnv : Env Unit Unit Unit :=
  { isReplEnabled := true
    exclusivelyHasConfigRole := false
    nss := "testDb.testColl"
    key := "candidateKey"
    validateNamespace := fun _ => Except.ok ()
    validateCollectionOptionsLocally := fun _ => Except.ok ()
    skipKeyCharacteristicsFailPoint := false
    skipReadWriteDistributionFailPoint := false
    multitenancySupport := false
    calculateKeyCharacteristicsMetrics := fun _ _ _ => Except.ok sampleMetrics
    calculateReadWriteDistributionMetrics := fun _ _ _ => Except.ok ((), ())
    isAuthorizedForActionsOnResource := fun _ _ => true }

/-- Environment of the C1 counterexample: a successful multitenant
invocation whose key-characteristics metrics report zero orphan docs. -/
def envC1 : Env Unit Unit Unit :=
  { baseEnv with multitenancySupport := true,
                 calculateKeyCharacteristicsMetrics := fun _ _ _ => Except.ok kcZeroOrphans }

/-- The response the code produces for envC1. -/
def respC1 : AnalyzeShardKeyResponse Unit Unit :=
  { keyCharacteristics := some kcZeroOrphans, readDistribution := none,
    writeDistribution := none, note := some kOrphanDocsWarningMessage }

/-- A standalone-node environment. -/
def envC2 : Env Unit Unit Unit :=
  { baseEnv with isReplEnabled := false }

/-- A multitenant environment with both gates disengaged. -/
def envC3 : Env Unit Unit Unit :=
  { baseEnv with multitenancySupport := true }

/-- The response the code produces for envC3. -/
def respC3 : AnalyzeShardKeyResponse Unit Unit :=
  { keyCharacteristics := some sampleMetrics, readDistribution := none,
    writeDistribution := none, note := none }

/-- An environment with the key-characteristics gate engaged. -/
def envC4 : Env Unit Unit Unit :=
  { baseEnv with skipKeyCharacteristicsFailPoint := true }

/-- The response the code produces for envC4. -/
def respC4 : AnalyzeShardKeyResponse Unit Unit :=
  { keyCharacteristics := none, readDistribution := some (),
    writeDistribution := some (), note := none }

/-- An environment with the key-characteristics gate engaged and the
distribution gate disengaged, multitenancy off. -/
def envC5 : Env Unit Unit Unit :=
  { baseEnv with skipKeyCharacteristicsFailPoint := true }

/-- The response the code produces for envC5. -/
def respC5 : AnalyzeShardKeyResponse Unit Unit :=
  { keyCharacteristics := none, readDistribution := some (),
    writeDistribution := some (), note := none }

/-- The error the Phase 1 collaborator raises in envC6. -/
def phase1FailureError : Err :=
  { code := ErrorCode.other 8423, msg := "phase 1 collaborator failure" }

/-- An environment whose Phase 1 collaborator fails. -/
def envC6 : Env Unit Unit Unit :=
  { baseEnv with
      calculateKeyCharacteristicsMetrics := fun _ _ _ => Except.error phase1FailureError }

/-- An all-default successful environment. -/
def envC7 : Env Unit Unit Unit := baseEnv

/-- The response the code produces for envC7. -/
def respC7 : AnalyzeShardKeyResponse Unit Unit :=
  { keyCharacteristics := some sampleMetrics, readDistribution := some (),
    writeDistribution := some (), note := none }

/-- An environment whose caller lacks the shardCollection privilege. -/
def envC8 : Env Unit Unit Unit :=
  { baseEnv with isAuthorizedForActionsOnResource := fun _ _ => false }

/-- An environment whose metrics report nine orphan docs. -/
def envC9 : Env Unit Unit Unit :=
  { baseEnv with calculateKeyCharacteristicsMetrics := fun _ _ _ => Except.ok kcWithOrphans }

/-- The response the code produces for envC9. -/
def respC9 : AnalyzeShardKeyResponse Unit Unit :=
  { keyCharacteristics := some kcWithOrphans, readDistribution := some (),
    writeDistribution := some (), note := some kOrphanDocsWarningMessage }

/-- An environment whose metrics report nine orphan docs (C10 witness). -/
def envC10 : Env Unit Unit Unit :=
  { baseEnv with calculateKeyCharacteristicsMetrics := fun _ _ _ => Except.ok kcWithOrphans }

/-- The response the code produces for envC10. -/
def respC10 : AnalyzeShardKeyResponse Unit Unit :=
  { keyCharacteristics := some kcWithOrphans, readDistribution := some (),
    writeDistribution := some (), note := some kOrphanDocsWarningMessage }

/-- Characterization of every successful run: all four precondition checks
passed, each phase left its fields set exactly when its gate was open, the
note reflects presence of the orphan count, and the trace lists the four
checks followed by the gated phase events. -/
theorem run_ok_characterization {R W U : Type} (env : Env R W U)
    (trace : List Event) (resp : AnalyzeShardKeyResponse R W)
    (h : run env = (trace, Except.ok resp)) :
    env.isReplEnabled = true ∧ env.exclusivelyHasConfigRole = false
    ∧ env.validateNamespace env.nss = Except.ok ()
    ∧ ∃ u, env.validateCollectionOptionsLocally env.nss = Except.ok u
      ∧ ((env.skipKeyCharacteristicsFailPoint = true
            ∧ resp.keyCharacteristics = none ∧ resp.note = none)
         ∨ (env.skipKeyCharacteristicsFailPoint = false
            ∧ ∃ kc, env.calculateKeyCharacteristicsMetrics env.nss u env.key = Except.ok kc
              ∧ resp.keyCharacteristics = some kc
              ∧ resp.note
                  = (if kc.numOrphanDocs.isSome then some kOrphanDocsWarningMessage
                     else none)))
      ∧ ((phase2Gate env = false
            ∧ resp.readDistribution = none ∧ resp.writeDistribution = none)
         ∨ (phase2Gate env = true
            ∧ ∃ rd wd,
                env.calculateReadWriteDistributionMetrics env.nss u env.key
                  = Except.ok (rd, wd)
              ∧ resp.readDistribution = some rd ∧ resp.writeDistribution = some wd))
      ∧ trace = [Event.checkRepl, Event.checkConfigRole, Event.checkNamespace,
                  Event.checkCollOptions]
          ++ (if phase1Gate env then [Event.phase1] else [])
          ++ (if phase2Gate env then [Event.phase2] else []) := by
  unfold run runPhase2 phase1Gate phase2Gate at h
  cases hrepl : env.isReplEnabled with
  | false => simp [hrepl] at h
  | true =>
  simp only [hrepl] at h
  cases hcfg : env.exclusivelyHasConfigRole with
  | true => simp [hcfg] at h
  | false =>
  simp only [hcfg] at h
  cases hns : env.validateNamespace env.nss with
  | error e => simp [hns] at h
  | ok v =>
  cases v
  simp only [hns] at h
  cases hco : env.validateCollectionOptionsLocally env.nss with
  | error e => simp [hco] at h
  | ok u =>
  simp only [hco] at h
  cases hskip : env.skipKeyCharacteristicsFailPoint with
  | true =>
    simp only [hskip, getNumOrphanDocs, emptyResponse] at h
    cases hmt : env.multitenancySupport with
    | true =>
      simp only [hmt] at h
      simp at h
      obtain ⟨htrace, hresp⟩ := h
      subst htrace; subst hresp
      simp [phase1Gate, phase2Gate, hskip, hmt, hns, hco, emptyResponse]
    | false =>
    simp only [hmt] at h
    cases hrw2 : env.skipReadWriteDistributionFailPoint with
    | true =>
      simp [hrw2] at h
      obtain ⟨htrace, hresp⟩ := h
      subst htrace; subst hresp
      simp [phase1Gate, phase2Gate, hskip, hmt, hrw2, hns, hco, emptyResponse]
    | false =>
      simp only [hrw2] at h
      cases hrwres : env.calculateReadWriteDistributionMetrics env.nss u env.key with
      | error e => simp [hrwres] at h
      | ok p =>
        obtain ⟨rd, wd⟩ := p
        simp [hrwres, emptyResponse] at h
        obtain ⟨htrace, hresp⟩ := h
        subst htrace; subst hresp
        simp [phase1Gate, phase2Gate, hskip, hmt, hrw2, hns, hco, hrwres, emptyResponse]
  | false =>
    simp only [hskip, getNumOrphanDocs, emptyResponse] at h
    cases hkc : env.calculateKeyCharacteristicsMetrics env.nss u env.key with
    | error e => simp [hkc] at h
    | ok kc =>
    simp [hkc, getNumOrphanDocs, emptyResponse] at h
    cases horph : kc.numOrphanDocs with
    | none =>
      simp [horph] at h
      cases hmt : env.multitenancySupport with
      | true =>
        simp [hmt] at h
        obtain ⟨htrace, hresp⟩ := h
        subst htrace; subst hresp
        simp [phase1Gate, phase2Gate, hskip, hmt, hns, hco, hkc, horph]
      | false =>
      simp only [hmt] at h
      cases hrw2 : env.skipReadWriteDistributionFailPoint with
      | true =>
        simp [hrw2] at h
        obtain ⟨htrace, hresp⟩ := h
        subst htrace; subst hresp
        simp [phase1Gate, phase2Gate, hskip, hmt, hrw2, hns, hco, hkc, horph]
      | false =>
        simp only [hrw2] at h
        cases hrwres : env.calculateReadWriteDistributionMetrics env.nss u env.key with
        | error e => simp [hrwres] at h
        | ok p =>
          obtain ⟨rd, wd⟩ := p
          simp [hrwres] at h
          obtain ⟨htrace, hresp⟩ := h
          subst htrace; subst hresp
          simp [phase1Gate, phase2Gate, hskip, hmt, hrw2, hns, hco, hkc, horph, hrwres]
    | some n =>
      simp [horph] at h
      cases hmt : env.multitenancySupport with
      | true =>
        simp [hmt] at h
        obtain ⟨htrace, hresp⟩ := h
        subst htrace; subst hresp
        simp [phase1Gate, phase2Gate, hskip, hmt, hns, hco, hkc, horph]
      | false =>
      simp only [hmt] at h
      cases hrw2 : env.skipReadWriteDistributionFailPoint with
      | true =>
        simp [hrw2] at h
        obtain ⟨htrace, hresp⟩ := h
        subst htrace; subst hresp
        simp [phase1Gate, phase2Gate, hskip, hmt, hrw2, hns, hco, hkc, horph]
      | false =>
        simp only [hrw2] at h
        cases hrwres : env.calculateReadWriteDistributionMetrics env.nss u env.key with
        | error e => simp [hrwres] at h
        | ok p =>
          obtain ⟨rd, wd⟩ := p
          simp [hrwres] at h
          obtain ⟨htrace, hresp⟩ := h
          subst htrace; subst hresp
          simp [phase1Gate, phase2Gate, hskip, hmt, hrw2, hns, hco, hkc, horph, hrwres]

/-- On a standalone (non-replicated) node the run stops at the first check
with the standalone IllegalOperation error. -/
theorem run_standalone {R W U : Type} (env : Env R W U)
    (h : env.isReplEnabled = false) :
    run env = ([Event.checkRepl], Except.error standaloneError) := by
  unfold run
  simp [h]

/-- On an exclusively-config-role node the run stops at the second check
with the configsvr IllegalOperation error. -/
theorem run_configsvr {R W U : Type} (env : Env R W U)
    (h1 : env.isReplEnabled = true) (h2 : env.exclusivelyHasConfigRole = true) :
    run env = ([Event.checkRepl, Event.checkConfigRole], Except.error configsvrError) := by
  unfold run
  simp [h1, h2]

/-- When namespace validation fails, the run stops at the third check with
that error. -/
theorem run_invalid_namespace {R W U : Type} (env : Env R W U) (e : Err)
    (h1 : env.isReplEnabled = true) (h2 : env.exclusivelyHasConfigRole = false)
    (h3 : env.validateNamespace env.nss = Except.error e) :
    run env = ([Event.checkRepl, Event.checkConfigRole, Event.checkNamespace],
               Except.error e) := by
  unfold run
  simp [h1, h2, h3]

/-- When collection-option validation fails, the run stops at the fourth
check with that error. -/
theorem run_invalid_options {R W U : Type} (env : Env R W U) (e : Err)
    (h1 : env.isReplEnabled = true) (h2 : env.exclusivelyHasConfigRole = false)
    (h3 : env.validateNamespace env.nss = Except.ok ())
    (h4 : env.validateCollectionOptionsLocally env.nss = Except.error e) :
    run env = ([Event.checkRepl, Event.checkConfigRole, Event.checkNamespace,
                Event.checkCollOptions], Except.error e) := by
  unfold run
  simp [h1, h2, h3, h4]

/-- When the Phase 1 collaborator fails, the run aborts with exactly that
error and Phase 2 is never invoked. -/
theorem run_phase1_error {R W U : Type} (env : Env R W U) (u : U) (e : Err)
    (h1 : env.isReplEnabled = true) (h2 : env.exclusivelyHasConfigRole = false)
    (h3 : env.validateNamespace env.nss = Except.ok ())
    (h4 : env.validateCollectionOptionsLocally env.nss = Except.ok u)
    (h5 : env.skipKeyCharacteristicsFailPoint = false)
    (h6 : env.calculateKeyCharacteristicsMetrics env.nss u env.key = Except.error e) :
    run env = ([Event.checkRepl, Event.checkConfigRole, Event.checkNamespace,
                Event.checkCollOptions, Event.phase1], Except.error e) := by
  unfold run phase1Gate
  simp [h1, h2, h3, h4, h5, h6]

/-- When the Phase 2 collaborator fails (after Phase 1 was skipped), the
run aborts with exactly that error. -/
theorem run_phase2_error_after_skip {R W U : Type} (env : Env R W U) (u : U) (e : Err)
    (h1 : env.isReplEnabled = true) (h2 : env.exclusivelyHasConfigRole = false)
    (h3 : env.validateNamespace env.nss = Except.ok ())
    (h4 : env.validateCollectionOptionsLocally env.nss = Except.ok u)
    (h5 : env.skipKeyCharacteristicsFailPoint = true)
    (h6 : env.multitenancySupport = false)
    (h7 : env.skipReadWriteDistributionFailPoint = false)
    (h8 : env.calculateReadWriteDistributionMetrics env.nss u env.key = Except.error e) :
    run env = ([Event.checkRepl, Event.checkConfigRole, Event.checkNamespace,
                Event.checkCollOptions, Event.phase2], Except.error e) := by
  unfold run runPhase2 phase1Gate phase2Gate
  simp [h1, h2, h3, h4, h5, h6, h7, h8]

/-- When the Phase 2 collaborator fails after Phase 1 produced its metrics,
the run aborts with exactly that error: the Phase 1 results are discarded
and no partial response is returned. -/
theorem run_phase2_error_after_phase1 {R W U : Type} (env : Env R W U) (u : U)
    (kc : KeyCharacteristicsMetrics) (e : Err)
    (h1 : env.isReplEnabled = true) (h2 : env.exclusivelyHasConfigRole = false)
    (h3 : env.validateNamespace env.nss = Except.ok ())
    (h4 : env.validateCollectionOptionsLocally env.nss = Except.ok u)
    (h5 : env.skipKeyCharacteristicsFailPoint = false)
    (h6 : env.calculateKeyCharacteristicsMetrics env.nss u env.key = Except.ok kc)
    (h7 : env.multitenancySupport = false)
    (h8 : env.skipReadWriteDistributionFailPoint = false)
    (h9 : env.calculateReadWriteDistributionMetrics env.nss u env.key = Except.error e) :
    run env = ([Event.checkRepl, Event.checkConfigRole, Event.checkNamespace,
                Event.checkCollOptions, Event.phase1, Event.phase2], Except.error e) := by
  unfold run runPhase2 phase1Gate phase2Gate
  simp [h1, h2, h3, h4, h5, h6, h7, h8, h9]

/-- The trace of every invocation is a sublist of the canonical order:
the four checks, then Phase 1, then Phase 2. -/
theorem run_trace_sublist {R W U : Type} (env : Env R W U) :
    List.Sublist (run env).1
      [Event.checkRepl, Event.checkConfigRole, Event.checkNamespace,
       Event.checkCollOptions, Event.phase1, Event.phase2] := by
  unfold run runPhase2 phase1Gate phase2Gate
  cases env.isReplEnabled <;> cases env.exclusivelyHasConfigRole <;>
    cases env.validateNamespace env.nss <;>
    cases env.validateCollectionOptionsLocally env.nss <;>
    cases env.skipKeyCharacteristicsFailPoint <;>
    cases env.multitenancySupport <;>
    cases env.skipReadWriteDistributionFailPoint <;>
    simp <;>
    first
    | decide
    | (cases env.calculateKeyCharacteristicsMetrics env.nss _ env.key <;> simp <;>
        first
        | decide
        | (cases env.calculateReadWriteDistributionMetrics env.nss _ env.key <;>
            simp))
    | (cases env.calculateReadWriteDistributionMetrics env.nss _ env.key <;>
        simp)

/-- C2: for every request, the four precondition checks execute in the
fixed order (replication-capable, not config-only, namespace validation,
collection-options validation), the first failing check aborts the
invocation with its own distinct error (IllegalOperation for checks 1 and
2) before either analysis phase executes, and no response is returned on
any precondition failure. -/
theorem precondition_checks_fixed_order_fail_fast {R W U : Type} (env : Env R W U) :
    standaloneError.code = ErrorCode.IllegalOperation
    ∧ configsvrError.code = ErrorCode.IllegalOperation
    ∧ standaloneError ≠ configsvrError
    ∧ (env.isReplEnabled = false →
        run env = ([Event.checkRepl], Except.error standaloneError))
    ∧ (env.isReplEnabled = true → env.exclusivelyHasConfigRole = true →
        run env = ([Event.checkRepl, Event.checkConfigRole], Except.error configsvrError))
    ∧ (∀ e, env.isReplEnabled = true → env.exclusivelyHasConfigRole = false →
        env.validateNamespace env.nss = Except.error e →
        run env = ([Event.checkRepl, Event.checkConfigRole, Event.checkNamespace],
                   Except.error e))
    ∧ (∀ e, env.isReplEnabled = true → env.exclusivelyHasConfigRole = false →
        env.validateNamespace env.nss = Except.ok () →
        env.validateCollectionOptionsLocally env.nss = Except.error e →
        run env = ([Event.checkRepl, Event.checkConfigRole, Event.checkNamespace,
                    Event.checkCollOptions], Except.error e)) := by
  refine ⟨rfl, rfl, by decide, ?_, ?_, ?_, ?_⟩
  · exact fun h => run_standalone env h
  · exact fun h1 h2 => run_configsvr env h1 h2
  · exact fun e h1 h2 h3 => run_invalid_namespace env e h1 h2 h3
  · exact fun e h1 h2 h3 h4 => run_invalid_options env e h1 h2 h3 h4

/-- C2 witness: on a concrete standalone environment the run aborts at the
first check with the standalone IllegalOperation error. -/
theorem precondition_checks_fixed_order_fail_fast_witness :
    run envC2 = ([Event.checkRepl], Except.error standaloneError) :=
  (precondition_checks_fixed_order_fail_fast envC2).2.2.2.1 rfl

/-- C3: on a multitenant deployment every successful invocation has both
distribution fields absent and the distribution collaborator is not
invoked, regardless of the distribution gate. -/
theorem multitenant_skips_distribution {R W U : Type} (env : Env R W U)
    (resp : AnalyzeShardKeyResponse R W)
    (hmt : env.multitenancySupport = true)
    (h : (run env).2 = Except.ok resp) :
    resp.readDistribution = none ∧ resp.writeDistribution = none
    ∧ Event.phase2 ∉ (run env).1 := by
  have hrun : run env = ((run env).1, Except.ok resp) := by rw [← h]
  obtain ⟨-, -, -, u, -, -, hphase2, htrace⟩ :=
    run_ok_characterization env (run env).1 resp hrun
  have hgate : phase2Gate env = false := by simp [phase2Gate, hmt]
  rcases hphase2 with ⟨-, hrd, hwd⟩ | ⟨hg, -⟩
  · refine ⟨hrd, hwd, ?_⟩
    rw [htrace]
    cases hp1 : phase1Gate env <;> simp [hgate, hp1]
  · exact absurd hg (by simp [hgate])

/-- C3 witness: concrete multitenant run with both gates disengaged. -/
theorem multitenant_skips_distribution_witness :
    respC3.readDistribution = none ∧ respC3.writeDistribution = none
    ∧ Event.phase2 ∉ (run envC3).1 :=
  multitenant_skips_distribution envC3 respC3 rfl rfl

/-- C4: with the key-characteristics gate engaged, the key-characteristics
collaborator is not invoked and every successful response has both the
keyCharacteristics and note fields absent. -/
theorem key_characteristics_gate_skips_phase1 {R W U : Type} (env : Env R W U)
    (resp : AnalyzeShardKeyResponse R W)
    (hskip : env.skipKeyCharacteristicsFailPoint = true)
    (h : (run env).2 = Except.ok resp) :
    resp.keyCharacteristics = none ∧ resp.note = none
    ∧ Event.phase1 ∉ (run env).1 := by
  have hrun : run env = ((run env).1, Except.ok resp) := by rw [← h]
  obtain ⟨-, -, -, u, -, hphase1, -, htrace⟩ :=
    run_ok_characterization env (run env).1 resp hrun
  have hgate : phase1Gate env = false := by simp [phase1Gate, hskip]
  rcases hphase1 with ⟨-, hkc, hnote⟩ | ⟨hsf, -⟩
  · refine ⟨hkc, hnote, ?_⟩
    rw [htrace]
    cases hp2 : phase2Gate env <;> simp [hgate, hp2]
  · rw [hskip] at hsf
    exact absurd hsf (by decide)

/-- C4 witness: concrete run with the key-characteristics gate engaged. -/
theorem key_characteristics_gate_skips_phase1_witness :
    respC4.keyCharacteristics = none ∧ respC4.note = none
    ∧ Event.phase1 ∉ (run envC4).1 :=
  key_characteristics_gate_skips_phase1 envC4 respC4 rfl rfl

/-- C5: Phase 1 always precedes Phase 2 in the trace; each gate is
evaluated independently at orchestration time (the Phase 1 gate reads only
its own fail point, the Phase 2 gate only multitenancy and its own fail
point, so changing the other phase controls never changes a gate), on
success each phase ran exactly when its own gate was open, and in
particular a successful invocation with the key-characteristics gate
engaged, the distribution gate disengaged and multitenancy off still
populates both distribution metrics. -/
theorem phases_ordered_and_gates_independent {R W U : Type} (env : Env R W U) (b : Bool) :
    List.Sublist (run env).1
      [Event.checkRepl, Event.checkConfigRole, Event.checkNamespace,
       Event.checkCollOptions, Event.phase1, Event.phase2]
    ∧ phase1Gate { env with multitenancySupport := b } = phase1Gate env
    ∧ phase1Gate { env with skipReadWriteDistributionFailPoint := b } = phase1Gate env
    ∧ phase2Gate { env with skipKeyCharacteristicsFailPoint := b } = phase2Gate env
    ∧ (∀ resp, (run env).2 = Except.ok resp →
        ((Event.phase1 ∈ (run env).1 ↔ phase1Gate env = true)
         ∧ (Event.phase2 ∈ (run env).1 ↔ phase2Gate env = true)))
    ∧ (∀ resp, (run env).2 = Except.ok resp →
        env.skipKeyCharacteristicsFailPoint = true →
        env.skipReadWriteDistributionFailPoint = false →
        env.multitenancySupport = false →
        resp.keyCharacteristics = none ∧ resp.note = none
        ∧ resp.readDistribution.isSome = true ∧ resp.writeDistribution.isSome = true) := by
  refine ⟨run_trace_sublist env, rfl, rfl, rfl, ?_, ?_⟩
  · intro resp h
    have hrun : run env = ((run env).1, Except.ok resp) := by rw [← h]
    obtain ⟨-, -, -, u, -, -, -, htrace⟩ :=
      run_ok_characterization env (run env).1 resp hrun
    rw [htrace]
    constructor
    · cases hp1 : phase1Gate env <;> cases hp2 : phase2Gate env <;> simp [hp1, hp2]
    · cases hp1 : phase1Gate env <;> cases hp2 : phase2Gate env <;> simp [hp1, hp2]
  · intro resp h hskip hrw2 hmt
    have hrun : run env = ((run env).1, Except.ok resp) := by rw [← h]
    obtain ⟨-, -, -, u, -, hphase1, hphase2, -⟩ :=
      run_ok_characterization env (run env).1 resp hrun
    have hgate2 : phase2Gate env = true := by simp [phase2Gate, hmt, hrw2]
    rcases hphase1 with ⟨-, hkc, hnote⟩ | ⟨hsf, -⟩
    · rcases hphase2 with ⟨hg, -⟩ | ⟨-, rd, wd, -, hrd, hwd⟩
      · rw [hgate2] at hg
        exact absurd hg (by decide)
      · exact ⟨hkc, hnote, by simp [hrd], by simp [hwd]⟩
    · rw [hskip] at hsf
      exact absurd hsf (by decide)

/-- C5 witness: on a concrete successful run with the key-characteristics
gate engaged and the distribution gate disengaged, Phase 2 ran exactly as
its gate dictates and both distribution metrics are populated. -/
theorem phases_ordered_and_gates_independent_witness :
    (Event.phase2 ∈ (run envC5).1 ↔ phase2Gate envC5 = true)
    ∧ (respC5.readDistribution.isSome = true ∧ respC5.writeDistribution.isSome = true) :=
  ⟨((phases_ordered_and_gates_independent envC5 true).2.2.2.2.1 respC5 rfl).2,
   ⟨((phases_ordered_and_gates_independent envC5 false).2.2.2.2.2 respC5 rfl rfl rfl rfl).2.2.1,
    ((phases_ordered_and_gates_independent envC5 false).2.2.2.2.2 respC5 rfl rfl rfl rfl).2.2.2⟩⟩

/-- C6: an error raised inside an attempted analysis phase aborts the whole
command with exactly that error (propagated unchanged): no response is
returned, and for a Phase 1 failure the Phase 2 collaborator is never
invoked; a Phase 2 failure discards the completed Phase 1 results, so no
partial-success response exists. -/
theorem phase_error_aborts_whole_command {R W U : Type} (env : Env R W U) (u : U) (e : Err)
    (h1 : env.isReplEnabled = true) (h2 : env.exclusivelyHasConfigRole = false)
    (h3 : env.validateNamespace env.nss = Except.ok ())
    (h4 : env.validateCollectionOptionsLocally env.nss = Except.ok u) :
    (env.skipKeyCharacteristicsFailPoint = false →
      env.calculateKeyCharacteristicsMetrics env.nss u env.key = Except.error e →
      (run env).2 = Except.error e ∧ Event.phase2 ∉ (run env).1)
    ∧ (env.multitenancySupport = false →
       env.skipReadWriteDistributionFailPoint = false →
       env.calculateReadWriteDistributionMetrics env.nss u env.key = Except.error e →
       (env.skipKeyCharacteristicsFailPoint = true → (run env).2 = Except.error e)
       ∧ (∀ kc, env.calculateKeyCharacteristicsMetrics env.nss u env.key = Except.ok kc →
            (run env).2 = Except.error e)) := by
  constructor
  · intro h5 h6
    have heq := run_phase1_error env u e h1 h2 h3 h4 h5 h6
    rw [heq]
    exact ⟨rfl, by simp⟩
  · intro h6 h7 h8
    constructor
    · intro h5
      have heq := run_phase2_error_after_skip env u e h1 h2 h3 h4 h5 h6 h7 h8
      rw [heq]
    · intro kc hkc
      cases hsk : env.skipKeyCharacteristicsFailPoint with
      | true =>
        have heq := run_phase2_error_after_skip env u e h1 h2 h3 h4 hsk h6 h7 h8
        rw [heq]
      | false =>
        have heq := run_phase2_error_after_phase1 env u kc e h1 h2 h3 h4 hsk hkc h6 h7 h8
        rw [heq]

/-- C6 witness: on a concrete environment whose Phase 1 collaborator fails,
the whole command fails with exactly that error and Phase 2 never runs. -/
theorem phase_error_aborts_whole_command_witness :
    (run envC6).2 = Except.error phase1FailureError ∧ Event.phase2 ∉ (run envC6).1 :=
  (phase_error_aborts_whole_command envC6 () phase1FailureError rfl rfl rfl rfl).1 rfl rfl

/-- C7: in every successful response the readDistribution and
writeDistribution fields are both present or both absent. -/
theorem distribution_fields_atomic {R W U : Type} (env : Env R W U)
    (resp : AnalyzeShardKeyResponse R W)
    (h : (run env).2 = Except.ok resp) :
    resp.readDistribution.isSome = resp.writeDistribution.isSome := by
  have hrun : run env = ((run env).1, Except.ok resp) := by rw [← h]
  obtain ⟨-, -, -, u, -, -, hphase2, -⟩ :=
    run_ok_characterization env (run env).1 resp hrun
  rcases hphase2 with ⟨-, hrd, hwd⟩ | ⟨-, rd, wd, -, hrd, hwd⟩ <;> simp [hrd, hwd]

/-- C7 witness: concrete successful run with both distribution records. -/
theorem distribution_fields_atomic_witness :
    respC7.readDistribution.isSome = respC7.writeDistribution.isSome :=
  distribution_fields_atomic envC7 respC7 rfl

/-- C8: the authorization check fails, with the Unauthorized error, exactly
when the caller does not hold the shardCollection privilege on the exact
target namespace; the dispatch layer evaluates it before the functional
checks, so an unauthorized caller reaches no check and no phase, while an
authorized caller proceeds to the unchanged functional run. -/
theorem authorization_checked_first_iff_privilege {R W U : Type} (env : Env R W U) :
    (doCheckAuthorization env = Except.error unauthorizedError
      ↔ env.isAuthorizedForActionsOnResource
          (ResourcePattern.exactNamespace env.nss) ActionType.shardCollection = false)
    ∧ (∀ e, doCheckAuthorization env = Except.error e → e = unauthorizedError)
    ∧ unauthorizedError.code = ErrorCode.Unauthorized
    ∧ (env.isAuthorizedForActionsOnResource
         (ResourcePattern.exactNamespace env.nss) ActionType.shardCollection = false →
       runCommand env = ([Event.checkAuth], Except.error unauthorizedError))
    ∧ (env.isAuthorizedForActionsOnResource
         (ResourcePattern.exactNamespace env.nss) ActionType.shardCollection = true →
       runCommand env = (Event.checkAuth :: (run env).1, (run env).2)) := by
  refine ⟨?_, ?_, rfl, ?_, ?_⟩
  · unfold doCheckAuthorization
    cases hauth : env.isAuthorizedForActionsOnResource
        (ResourcePattern.exactNamespace env.nss) ActionType.shardCollection <;>
      simp [hauth]
  · intro e he
    unfold doCheckAuthorization at he
    cases hauth : env.isAuthorizedForActionsOnResource
        (ResourcePattern.exactNamespace env.nss) ActionType.shardCollection <;>
      simp [hauth] at he
    exact he.symm
  · intro hf
    unfold runCommand doCheckAuthorization
    simp [hf]
  · intro ht
    unfold runCommand doCheckAuthorization
    simp [ht]

/-- C8 witness: a concrete unauthorized caller is rejected before any
functional check. -/
theorem authorization_checked_first_iff_privilege_witness :
    runCommand envC8 = ([Event.checkAuth], Except.error unauthorizedError) :=
  (authorization_checked_first_iff_privilege envC8).2.2.2.1 rfl

/-- C9: in every successful response, if the note field is present then the
keyCharacteristics field is present as well. -/
theorem note_implies_key_characteristics {R W U : Type} (env : Env R W U)
    (resp : AnalyzeShardKeyResponse R W)
    (h : (run env).2 = Except.ok resp)
    (hnote : resp.note.isSome = true) :
    resp.keyCharacteristics.isSome = true := by
  have hrun : run env = ((run env).1, Except.ok resp) := by rw [← h]
  obtain ⟨-, -, -, u, -, hphase1, -, -⟩ :=
    run_ok_characterization env (run env).1 resp hrun
  rcases hphase1 with ⟨-, -, hn⟩ | ⟨-, kc, -, hkc, -⟩
  · rw [hn] at hnote
    exact absurd hnote (by decide)
  · rw [hkc]
    rfl

/-- C9 witness: concrete run whose response carries the note. -/
theorem note_implies_key_characteristics_witness :
    respC9.keyCharacteristics.isSome = true :=
  note_implies_key_characteristics envC9 respC9 rfl rfl

/-- C10: whenever a successful response carries a note, the note is the one
fixed advisory string, independent of the metric values: the text built
from the numOrphanDocs, numDocs, numDistinctValues and mostCommonValues
field names advising a rerun at some other time. -/
theorem note_is_fixed_advisory_text {R W U : Type} (env : Env R W U)
    (resp : AnalyzeShardKeyResponse R W) (s : String)
    (h : (run env).2 = Except.ok resp)
    (hs : resp.note = some s) :
    s = kOrphanDocsWarningMessage
    ∧ kOrphanDocsWarningMessage
        = "If \"numOrphanDocs\" is large relative to \"numDocs\", you may want to rerun the command at some other time to get more accurate \"numDistinctValues\" and \"mostCommonValues\" metrics." := by
  refine ⟨?_, rfl⟩
  have hrun : run env = ((run env).1, Except.ok resp) := by rw [← h]
  obtain ⟨-, -, -, u, -, hphase1, -, -⟩ :=
    run_ok_characterization env (run env).1 resp hrun
  rcases hphase1 with ⟨-, -, hn⟩ | ⟨-, kc, -, -, hn⟩
  · rw [hn] at hs
    exact absurd hs (by simp)
  · rw [hn] at hs
    cases horph : kc.numOrphanDocs with
    | none => rw [horph] at hs; simp at hs
    | some n =>
      rw [horph] at hs
      simp at hs
      exact hs.symm

/-- C10 witness: concrete run whose response carries the note. -/
theorem note_is_fixed_advisory_text_witness :
    kOrphanDocsWarningMessage = kOrphanDocsWarningMessage
    ∧ kOrphanDocsWarningMessage
        = "If \"numOrphanDocs\" is large relative to \"numDocs\", you may want to rerun the command at some other time to get more accurate \"numDistinctValues\" and \"mostCommonValues\" metrics." :=
  note_is_fixed_advisory_text envC10 respC10 kOrphanDocsWarningMessage rfl rfl

/-- C1 counterexample: a successful invocation with the key-characteristics
gate disengaged whose produced metrics report an orphan-document count
equal to zero nevertheless carries the advisory note, so the claim that a
reported zero count attaches no note is false on the code: the C++
condition on line 92 tests presence of the optional count, not its value. -/
theorem note_attached_for_reported_zero_orphans :
    (run envC1).2 = Except.ok respC1
    ∧ envC1.skipKeyCharacteristicsFailPoint = false
    ∧ respC1.keyCharacteristics = some kcZeroOrphans
    ∧ kcZeroOrphans.numOrphanDocs = some 0
    ∧ respC1.note = some kOrphanDocsWarningMessage
    ∧ respC1.note ≠ none :=
  ⟨rfl, rfl, rfl, rfl, rfl, by simp [respC1]⟩

/-- C1 (amended): in every successful invocation the note is present if and
only if the produced key-characteristics metrics report an orphan-document
count at all (present with any value, zero included); when present it
equals the fixed advisory text, and when the count is absent or the phase
skipped the note is absent. -/
theorem note_present_iff_orphan_count_reported {R W U : Type} (env : Env R W U)
    (resp : AnalyzeShardKeyResponse R W)
    (h : (run env).2 = Except.ok resp) :
    (resp.note.isSome = true ↔ (getNumOrphanDocs resp).isSome = true)
    ∧ (∀ s, resp.note = some s → s = kOrphanDocsWarningMessage) := by
  have hrun : run env = ((run env).1, Except.ok resp) := by rw [← h]
  obtain ⟨-, -, -, u, -, hphase1, -, -⟩ :=
    run_ok_characterization env (run env).1 resp hrun
  rcases hphase1 with ⟨-, hkc, hn⟩ | ⟨-, kc, -, hkc, hn⟩
  · constructor
    · rw [hn]
      unfold getNumOrphanDocs
      rw [hkc]
      simp
    · intro s hs
      rw [hn] at hs
      exact absurd hs (by simp)
  · constructor
    · rw [hn]
      unfold getNumOrphanDocs
      rw [hkc]
      cases horph : kc.numOrphanDocs <;> simp [horph]
    · intro s hs
      rw [hn] at hs
      cases horph : kc.numOrphanDocs with
      | none => rw [horph] at hs; simp at hs
      | some n =>
        rw [horph] at hs
        simp at hs
        exact hs.symm

/-- C1 (amended) witness: concrete successful run whose metrics report a
zero orphan count: the count is present, so the note is present and equals
the advisory text. -/
theorem note_present_iff_orphan_count_reported_witness :
    (respC1.note.isSome = true ↔ (getNumOrphanDocs respC1).isSome = true)
    ∧ (∀ s, respC1.note = some s → s = kOrphanDocsWarningMessage) :=
  note_present_iff_orphan_count_reported envC1 respC1 rfl

end analyze_shard_key
